import Mathlib

/-
Shallow embedding of the Digital Estate Action agent
(death_note/digital_estate_action/agent.py and
Projects/Digital_asset_identification/digital_estate_action/tools/discovery_tools.py).

Conventions of the embedding:
* Python strings are Lean `String`; single-character splitting, lowering and
  substring tests are implemented structurally over `List Char` so that the
  kernel can evaluate them.
* Python floats in the sources are exact decimal literals (confidence scores
  such as 0.95, ratings such as 4.8, distances such as 2.3); they are embedded
  as `ℚ`, which preserves every comparison the code performs on them.
* Wall-clock timestamps are modelled at day resolution by an `Int`, so that
  the `(datetime.now() - created_date).days` computation becomes a subtraction.
* The JSON tracking file is a `StoreState`: absent, unparseable, or an
  insertion-ordered association list, matching Python dict semantics.
* `list.sort(key=k, reverse=True)` is a stable descending sort; it is embedded
  as `List.insertionSort` with the reflexive relation "key of the left element
  is lexicographically at least the key of the right element", which is the
  unique stable sort for that ordering.
-/

/-- Python `str.lower`, as a character-wise map (the sources only lower
ASCII identifiers and keywords). -/
def strLower (s : String) : String := String.mk (s.data.map Char.toLower)

/-- Python `str.upper`, as a character-wise map (used for case identifiers). -/
def strUpper (s : String) : String := String.mk (s.data.map Char.toUpper)

/-- Contiguous-sublist test over lists, the embedding of the Python
`needle in hay` substring test. -/
def listSub [BEq α] : List α → List α → Bool
  | l, [] => l.isEmpty
  | l, h :: t => l.isPrefixOf (h :: t) || listSub l t

/-- Python `needle in hay` on strings. -/
def strIn (needle hay : String) : Bool := listSub needle.data hay.data

/-- Python `str.split(sep)` for a one-character separator. -/
def splitChar (sep : Char) : List Char → List (List Char)
  | [] => [[]]
  | c :: rest =>
    if c == sep then [] :: splitChar sep rest
    else
      match splitChar sep rest with
      | [] => [[c]]
      | h :: t => (c :: h) :: t

/-- Python `int(s)` restricted to unsigned decimal digit strings; every other
shape raises in Python and the callers catch and drop that case, which is
modelled by `none`. -/
def digitsNat (cs : List Char) : Option Nat :=
  if cs ≠ [] ∧ cs.all (fun c => c.isDigit) then
    some (cs.foldl (fun n c => n * 10 + (c.toNat - 48)) 0)
  else none

/-- One stored case, exactly the record written by `send_recovery_email`
(agent.py lines 125-134).  `created_date` and `last_updated` hold the
day number of the wall clock. -/
structure CaseRecord where
  case_id : String
  platform : String
  deceased_name : String
  executor_name : String
  action_type : String
  created_date : Int
  status : String
  last_updated : Int
deriving DecidableEq

/-- The backing `case_tracking.json` resource: absent, present but
unparseable by `json.load`, or a parsed JSON object. -/
inductive StoreState where
  | missing
  | corrupt
  | ok (data : List (String × CaseRecord))
deriving DecidableEq

/-- The `current_status` wording chosen by `track_case_status`
(agent.py lines 410-441); the branch structure is copied verbatim. -/
def trackTier (platform : String) (d : Int) : String :=
  if platform = "Facebook" then
    if d < 14 then "Under review"
    else if d < 30 then "Should hear back soon"
    else "Consider following up"
  else if platform = "Google" then
    if d < 30 then "Under review"
    else if d < 90 then "Still processing"
    else "Follow-up recommended"
  else
    if d < 30 then "Under review"
    else if d < 90 then "Processing"
    else "Follow-up needed"

/-- The numeric day counts interpolated into the `estimated_completion`
string of `track_case_status`, branch for branch (agent.py lines 410-441):
each entry is one `bound - days_elapsed` subtraction the code performs in
that branch.  Branches whose text carries no day count give `[]`. -/
def estimateNumbers (platform : String) (d : Int) : List Int :=
  if platform = "Facebook" then
    if d < 14 then [14 - d, 30 - d]
    else if d < 30 then [30 - d]
    else []
  else if platform = "Google" then
    if d < 30 then [30 - d, 90 - d]
    else if d < 90 then [90 - d]
    else []
  else
    if d < 30 then [30 - d, 90 - d]
    else if d < 90 then [90 - d]
    else []

/-- The `estimated_completion` text itself (agent.py lines 410-441). -/
def estimatedCompletion (platform : String) (d : Int) : String :=
  if platform = "Facebook" then
    if d < 14 then toString (14 - d) ++ " to " ++ toString (30 - d) ++ " days remaining"
    else if d < 30 then "Any day now to " ++ toString (30 - d) ++ " days"
    else "Send follow-up email or contact support"
  else if platform = "Google" then
    if d < 30 then toString (30 - d) ++ " to " ++ toString (90 - d) ++ " days remaining"
    else if d < 90 then "Should complete within " ++ toString (90 - d) ++ " days"
    else "Contact Google support for status update"
  else
    if d < 30 then toString (30 - d) ++ " to " ++ toString (90 - d) ++ " days remaining"
    else if d < 90 then "Should complete within " ++ toString (90 - d) ++ " days"
    else "Contact platform support for update"

/-- The recommended next actions of `track_case_status`
(agent.py lines 444-453), bracketed by the fixed 30/60 day thresholds. -/
def nextStepsFor (d : Int) : List String :=
  if d < 30 then
    ["✅ Wait for platform response (still within normal timeline)",
     "📋 Prepare any additional documents that might be requested"]
  else if d < 60 then
    ["📧 Monitor email for platform communications",
     "⏰ Still within normal processing time - continue waiting"]
  else
    ["📞 Send follow-up email - processing time exceeded",
     "🔄 Consider contacting platform support directly"]

/-- The result dictionary of `track_case_status`.  Keys that a given branch
does not emit keep their default value; the nested `timeline_progress`
display block is omitted (constant presentation text). -/
structure TrackResult where
  status : String
  message : String := ""
  suggestion : String := ""
  available_cases : List String := []
  case_id : String := ""
  platform : String := ""
  deceased_name : String := ""
  executor_name : String := ""
  created_date : Int := 0
  days_elapsed : Int := 0
  current_status : String := ""
  estimated_completion : String := ""
  estimate_numbers : List Int := []
  next_steps : List String := []
deriving DecidableEq

/-- Python dict lookup `d.get(k)` over an insertion-ordered association
list: the embedding of `case_id in tracking_data` and
`tracking_data[case_id]`. -/
def dictGet (l : List (String × CaseRecord)) (k : String) : Option CaseRecord :=
  match l with
  | [] => none
  | p :: t => if p.1 = k then some p.2 else dictGet t k

/-- `track_case_status` (agent.py lines 369-472).  The `try` around the file
read maps the three `StoreState` shapes to the three entry branches; the rest
follows the source line for line.  `now` is the query-time day number. -/
def track_case_status (store : StoreState) (case_id : String) (now : Int) : TrackResult :=
  match store with
  | .missing =>
      { status := "not_found"
        message := "No tracking data found. Make sure you have the correct case ID."
        suggestion := "Case IDs are created when you send recovery emails. Format: GOOGLE_20241218_143052" }
  | .corrupt =>
      { status := "error"
        message := "Error reading tracking data" }
  | .ok tracking_data =>
      match dictGet tracking_data case_id with
      | none =>
          { status := "not_found"
            message := "Case ID " ++ case_id ++ " not found"
            available_cases := (tracking_data.map Prod.fst).take 5
            suggestion := "Please check the case ID or use the exact ID provided when the case was created" }
      | some c =>
          let d := now - c.created_date
          { status := "found"
            case_id := case_id
            platform := c.platform
            deceased_name := c.deceased_name
            executor_name := c.executor_name
            created_date := c.created_date
            days_elapsed := d
            current_status := trackTier c.platform d
            estimated_completion := estimatedCompletion c.platform d
            estimate_numbers := estimateNumbers c.platform d
            next_steps := nextStepsFor d }

/-- Spec-side lower bound of expected processing days (spec 4.3): the day on
which a case leaves the under-review tier. -/
def specLowerBound (platform : String) : Int :=
  if platform = "Facebook" then 14 else 30

/-- Spec-side upper bound of expected processing days (spec 4.3): the day on
which a case enters the follow-up tier. -/
def specUpperBound (platform : String) : Int :=
  if platform = "Facebook" then 30 else 90

/-- Spec-side lifecycle tier index: 0 below the lower bound, 1 between the
bounds, 2 from the upper bound on.  This is the state machine of spec 4.3
written independently of the source. -/
def specTier (platform : String) (d : Int) : Nat :=
  if d < specLowerBound platform then 0
  else if d < specUpperBound platform then 1
  else 2

/-- The wording the source uses for each tier of each platform. -/
def tierName (platform : String) : Nat → String
  | 0 => "Under review"
  | 1 =>
    if platform = "Facebook" then "Should hear back soon"
    else if platform = "Google" then "Still processing"
    else "Processing"
  | _ =>
    if platform = "Facebook" then "Consider following up"
    else if platform = "Google" then "Follow-up recommended"
    else "Follow-up needed"

theorem trackTier_eq_specTier (platform : String) (d : Int) :
    trackTier platform d = tierName platform (specTier platform d) := by
  unfold trackTier tierName specTier specLowerBound specUpperBound
  by_cases hF : platform = "Facebook" <;> by_cases hG : platform = "Google" <;>
    simp [hF, hG] <;> split_ifs <;> simp_all

theorem estimateNumbers_pos (platform : String) (d : Int) :
    ∀ n ∈ estimateNumbers platform d, 0 < n := by
  intro n hn
  unfold estimateNumbers at hn
  split_ifs at hn <;> simp_all <;> omega

/-- One row of the static platform reference table of `send_recovery_email`
(agent.py lines 37-62). -/
structure PlatformInfo where
  support_email : String
  process : String
  timeline : String
  form_url : String
deriving DecidableEq

/-- The Google row, which also serves as the fallback entry for unknown
platforms (`platform_info.get(platform, platform_info["Google"])`). -/
def googleInfo : PlatformInfo :=
  { support_email := "accounts-support@google.com"
    process := "deceased user notification"
    timeline := "30-90 days"
    form_url := "https://support.google.com/accounts/contact/deceased" }

def platform_info : List (String × PlatformInfo) :=
  [(("Google"), googleInfo),
   (("Facebook"),
    { support_email := "support@fb.com"
      process := "memorialization request"
      timeline := "14-30 days"
      form_url := "https://www.facebook.com/help/contact/234739086860192" }),
   (("Apple"),
    { support_email := "account_security@apple.com"
      process := "digital legacy contact"
      timeline := "60-180 days"
      form_url := "https://support.apple.com/en-us/HT208510" }),
   (("Microsoft"),
    { support_email := "msaccount@microsoft.com"
      process := "account closure"
      timeline := "30-60 days"
      form_url := "https://support.microsoft.com/account-billing" })]

/-- The eight string arguments of `send_recovery_email`. -/
structure SendInputs where
  platform : String
  deceased_name : String
  deceased_email : String
  deceased_date : String
  executor_name : String
  executor_email : String
  executor_relationship : String
  available_documents : String
deriving DecidableEq

/-- The subject line generated by `send_recovery_email` (agent.py line 67). -/
def send_subject (i : SendInputs) : String :=
  "Digital Estate Recovery Request - " ++ i.deceased_name ++ " (Deceased)"

/-- The full body text generated by `send_recovery_email`
(agent.py lines 69-110), with every field substituted verbatim. -/
def send_body (i : SendInputs) : String :=
  let info := (platform_info.lookup i.platform).getD googleInfo
  String.intercalate ("\n")
    ["Dear " ++ i.platform ++ " Support Team,",
     "",
     "I hope this message finds you well. I am writing to inform you of the passing of "
       ++ i.deceased_name ++ ", who held an account with " ++ i.platform
       ++ " under the email address " ++ i.deceased_email ++ ".",
     "",
     "DECEASED INFORMATION:",
     "- Full Name: " ++ i.deceased_name,
     "- Email Address: " ++ i.deceased_email,
     "- Date of Passing: " ++ i.deceased_date,
     "",
     "REQUESTING PARTY INFORMATION:",
     "- Name: " ++ i.executor_name,
     "- Email: " ++ i.executor_email ++ "  ",
     "- Relationship to Deceased: " ++ i.executor_relationship,
     "",
     "I am reaching out to request assistance with accessing or managing the deceased\x27s "
       ++ i.platform ++ " account in accordance with your " ++ info.process
       ++ " procedures. This request is being made to:",
     "",
     "1. Preserve important family memories and documents",
     "2. Properly close the account per your policies",
     "3. Retrieve any essential personal or business information",
     "4. Address ongoing services or subscriptions",
     "",
     "AVAILABLE DOCUMENTATION:",
     i.available_documents,
     "",
     "I understand that " ++ i.platform
       ++ " has specific procedures for handling deceased user accounts, and I am prepared to provide any additional documentation required. Based on your published guidelines, I expect this process may take approximately "
       ++ info.timeline ++ ".",
     "",
     "If there is a preferred form or additional process I should follow, please direct me to the appropriate resources. I have noted that "
       ++ i.platform ++ " may have an online form at: " ++ info.form_url,
     "",
     "I would greatly appreciate your guidance on the next steps and any specific requirements for processing this request. This is already a difficult time for our family, and your assistance would be invaluable.",
     "",
     "Please feel free to contact me at " ++ i.executor_email
       ++ " or respond to this email if you need any additional information or documentation.",
     "",
     "Thank you for your time and consideration.",
     "",
     "Respectfully,",
     "",
     i.executor_name,
     i.executor_relationship ++ " of " ++ i.deceased_name,
     "Email: " ++ i.executor_email,
     "",
     "---",
     "This request is made in accordance with applicable digital estate laws and "
       ++ i.platform ++ "\x27s deceased user policies."]

/-- `body[:500] + "..."`, the preview included in every result branch. -/
def bodyPreview (b : String) : String := b.take 500 ++ "..."

/-- Outcome of the SMTP transmission attempt (agent.py lines 148-157): it
either completes, or raises a local error with message `msg`. -/
inductive SmtpOutcome where
  | ok
  | exn (msg : String)
deriving DecidableEq

/-- Python truthiness of an `os.getenv` result: unset (`None`) and the empty
string are falsy. -/
def truthy : Option String → Bool
  | none => false
  | some s => !s.isEmpty

/-- The ambient world of one `send_recovery_email` call: the two transport
configuration values, the outcome the SMTP attempt would have, the state of
the tracking store, whether rewriting it raises, and the wall clock
(`ts` is the formatted `%Y%m%d_%H%M%S` timestamp, `now` the day number). -/
structure SendEnv where
  gmail_email : Option String
  gmail_password : Option String
  smtp : SmtpOutcome
  store : StoreState
  write_fails : Bool
  ts : String
  now : Int

/-- Python dict update `d[k] = v`: an existing key keeps its position, a new
key is appended. -/
def upsert (l : List (String × CaseRecord)) (k : String) (v : CaseRecord) :
    List (String × CaseRecord) :=
  if l.any (fun p => decide (p.1 = k)) then
    l.map (fun p => if p.1 = k then (k, v) else p)
  else l ++ [(k, v)]

/-- The result dictionary of `send_recovery_email`; the nested
`email_preview` dict is flattened into the two `preview_` fields, and keys a
branch does not emit keep their defaults. -/
structure SendResult where
  status : String
  case_id : String
  message : String
  platform : String := ""
  support_email : String := ""
  estimated_response_time : String := ""
  preview_subject : String
  preview_body : String
  demo_note : String := ""
  next_steps : List String := []
deriving DecidableEq

/-- The data the tracking file contributes to the read-modify-write cycle:
the inner `try` of agent.py lines 118-123 turns an absent or unparseable
file into the empty dict. -/
def loadedData : StoreState → List (String × CaseRecord)
  | .ok d => d
  | _ => []

/-- The case identifier `{PLATFORM_UPPERCASE}_{YYYYMMDD_HHMMSS}`
(agent.py line 113); `env.ts` is the formatted timestamp. -/
def sentCaseId (i : SendInputs) (env : SendEnv) : String :=
  strUpper i.platform ++ "_" ++ env.ts

/-- The case record stored by `send_recovery_email` (agent.py lines 125-134). -/
def sentRecord (i : SendInputs) (env : SendEnv) : CaseRecord :=
  { case_id := sentCaseId i env
    platform := i.platform
    deceased_name := i.deceased_name
    executor_name := i.executor_name
    action_type := "email"
    created_date := env.now
    status := "submitted"
    last_updated := env.now }

/-- `send_recovery_email` (agent.py lines 17-208).  The `try` around the
store update (lines 116-139) catches every failure: an unreadable or absent
file loads as `{}` (inner `try`), and a failing rewrite leaves the store
unchanged and the function running (outer `try`).  Returns the result
dictionary together with the store state after the call. -/
def send_recovery_email (i : SendInputs) (env : SendEnv) : SendResult × StoreState :=
  let info := (platform_info.lookup i.platform).getD googleInfo
  let subject := send_subject i
  let body := send_body i
  let case_id := sentCaseId i env
  let store1 : StoreState :=
    if env.write_fails then env.store
    else .ok (upsert (loadedData env.store) case_id (sentRecord i env))
  let result : SendResult :=
    if truthy env.gmail_email && truthy env.gmail_password then
      match env.smtp with
      | .ok =>
          { status := "sent"
            case_id := case_id
            message := "✅ Recovery email sent to " ++ i.platform ++ " support successfully!"
            platform := i.platform
            support_email := info.support_email
            estimated_response_time := info.timeline
            preview_subject := subject
            preview_body := bodyPreview body
            next_steps :=
              ["Monitor your email (" ++ i.executor_email ++ ") for responses from " ++ i.platform,
               "Expected response time: " ++ info.timeline,
               "Use case ID " ++ case_id ++ " to track progress",
               "Prepare to provide additional documentation if requested"] }
      | .exn msg =>
          { status := "error"
            case_id := case_id
            message := "❌ Failed to send email: " ++ msg
            preview_subject := subject
            preview_body := bodyPreview body }
    else
      { status := "demo"
        case_id := case_id
        message := "📧 DEMO MODE: Professional recovery email generated for " ++ i.platform
        platform := i.platform
        support_email := info.support_email
        estimated_response_time := info.timeline
        preview_subject := subject
        preview_body := bodyPreview body
        demo_note := "To send real emails, configure GMAIL_EMAIL and GMAIL_APP_PASSWORD in .env file"
        next_steps :=
          ["Copy the email content and send manually to " ++ info.support_email,
           "Expected response time: " ++ info.timeline,
           "Use case ID " ++ case_id ++ " to track progress",
           "Or configure real email sending in .env file"] }
  (result, store1)


theorem dictGet_map_update (l : List (String × CaseRecord)) (k : String) (v : CaseRecord)
    (h : l.any (fun p => decide (p.1 = k)) = true) :
    dictGet (l.map (fun p => if p.1 = k then (k, v) else p)) k = some v := by
  induction l with
  | nil => simp at h
  | cons p t ih =>
    by_cases hp : p.1 = k
    · simp [dictGet, hp]
    · simp only [List.any_cons, Bool.or_eq_true, decide_eq_true_eq] at h
      rcases h with h | h
      · exact absurd h hp
      · simpa [dictGet, hp] using ih (by simpa using h)

theorem dictGet_append_last (l : List (String × CaseRecord)) (k : String) (v : CaseRecord)
    (h : l.any (fun p => decide (p.1 = k)) = false) :
    dictGet (l ++ [(k, v)]) k = some v := by
  induction l with
  | nil => simp [dictGet]
  | cons p t ih =>
    simp only [List.any_cons, Bool.or_eq_false_iff, decide_eq_false_iff_not] at h
    simp only [List.cons_append, dictGet, if_neg h.1]
    exact ih (by simp [h.2])

theorem dictGet_upsert (l : List (String × CaseRecord)) (k : String) (v : CaseRecord) :
    dictGet (upsert l k v) k = some v := by
  unfold upsert
  cases hx : l.any (fun p => decide (p.1 = k))
  · simp only [hx, Bool.false_eq_true, if_false]
    exact dictGet_append_last l k v hx
  · simp only [hx, if_true]
    exact dictGet_map_update l k v hx

theorem send_result_case_id (i : SendInputs) (env : SendEnv) :
    (send_recovery_email i env).1.case_id = sentCaseId i env := by
  unfold send_recovery_email
  dsimp only
  split
  · split <;> rfl
  · rfl

theorem send_store_of_write_ok (i : SendInputs) (env : SendEnv)
    (hW : env.write_fails = false) :
    (send_recovery_email i env).2
      = .ok (upsert (loadedData env.store) (sentCaseId i env) (sentRecord i env)) := by
  unfold send_recovery_email
  dsimp only
  simp [hW]

/-- C1: for every case stored by `send_recovery_email` (with the store
rewrite succeeding) and every query day, `track_case_status` finds the case
and derives its lifecycle wording from `elapsed_days = now - created_date`
through the spec-side tier function: tier 0 (under review) strictly below
the platform lower bound, tier 1 from exactly the lower bound, tier 2 from
exactly the upper bound; the bounds are 14/30 for Facebook and 30/90 for
every other platform, and the three wordings of any platform are pairwise
distinct, so each crossing is observable. -/
theorem lifecycle_tier_crossings (i : SendInputs) (env : SendEnv) (now : Int)
    (hW : env.write_fails = false) :
    ((track_case_status (send_recovery_email i env).2
        (send_recovery_email i env).1.case_id now).status = "found"
      ∧ (track_case_status (send_recovery_email i env).2
          (send_recovery_email i env).1.case_id now).current_status
        = tierName i.platform (specTier i.platform (now - env.now)))
    ∧ specTier i.platform 0 = 0
    ∧ (∀ d : Int, d < specLowerBound i.platform →
        trackTier i.platform d = tierName i.platform 0)
    ∧ (∀ d : Int, specLowerBound i.platform ≤ d → d < specUpperBound i.platform →
        trackTier i.platform d = tierName i.platform 1)
    ∧ (∀ d : Int, specUpperBound i.platform ≤ d →
        trackTier i.platform d = tierName i.platform 2)
    ∧ (i.platform = "Facebook" →
        specLowerBound i.platform = 14 ∧ specUpperBound i.platform = 30)
    ∧ (i.platform ≠ "Facebook" →
        specLowerBound i.platform = 30 ∧ specUpperBound i.platform = 90)
    ∧ tierName i.platform 0 ≠ tierName i.platform 1
    ∧ tierName i.platform 1 ≠ tierName i.platform 2
    ∧ tierName i.platform 0 ≠ tierName i.platform 2 := by
  have hfound :
      track_case_status (send_recovery_email i env).2
        (send_recovery_email i env).1.case_id now
      = { status := "found"
          case_id := sentCaseId i env
          platform := i.platform
          deceased_name := i.deceased_name
          executor_name := i.executor_name
          created_date := env.now
          days_elapsed := now - env.now
          current_status := trackTier i.platform (now - env.now)
          estimated_completion := estimatedCompletion i.platform (now - env.now)
          estimate_numbers := estimateNumbers i.platform (now - env.now)
          next_steps := nextStepsFor (now - env.now) } := by
    rw [send_result_case_id, send_store_of_write_ok i env hW]
    simp only [track_case_status, dictGet_upsert]
    rfl
  refine ⟨⟨by rw [hfound], by rw [hfound]; exact trackTier_eq_specTier i.platform (now - env.now)⟩,
    ?_, ?_, ?_, ?_, ?_, ?_, ?_, ?_, ?_⟩
  · simp [specTier, specLowerBound, specUpperBound]
    split_ifs <;> simp_all <;> omega
  · intro d hd
    unfold trackTier tierName specLowerBound at *
    by_cases hF : i.platform = "Facebook" <;> by_cases hG : i.platform = "Google" <;>
      simp_all <;> split_ifs <;> simp_all <;> omega
  · intro d hd1 hd2
    unfold trackTier tierName specLowerBound specUpperBound at *
    by_cases hF : i.platform = "Facebook" <;> by_cases hG : i.platform = "Google" <;>
      simp_all <;> split_ifs <;> simp_all <;> omega
  · intro d hd
    unfold trackTier tierName specUpperBound at *
    by_cases hF : i.platform = "Facebook" <;> by_cases hG : i.platform = "Google" <;>
      simp_all <;> split_ifs <;> simp_all <;> omega
  · intro hF
    simp [specLowerBound, specUpperBound, hF]
  · intro hF
    simp [specLowerBound, specUpperBound, hF]
  · unfold tierName
    by_cases hF : i.platform = "Facebook" <;> by_cases hG : i.platform = "Google" <;>
      simp_all
  · unfold tierName
    by_cases hF : i.platform = "Facebook" <;> by_cases hG : i.platform = "Google" <;>
      simp_all
  · unfold tierName
    by_cases hF : i.platform = "Facebook" <;> by_cases hG : i.platform = "Google" <;>
      simp_all

/-- Fixed sample arguments used by the concrete-input witnesses. -/
def sampleInputs : SendInputs :=
  { platform := "Facebook"
    deceased_name := "John Doe"
    deceased_email := "john@example.com"
    deceased_date := "2024-01-01"
    executor_name := "Jane Doe"
    executor_email := "jane@example.com"
    executor_relationship := "spouse"
    available_documents := "Death certificate" }

/-- Environment with no transport configuration (demo mode), empty store,
write succeeding. -/
def demoEnv : SendEnv :=
  { gmail_email := none
    gmail_password := none
    smtp := .ok
    store := .missing
    write_fails := false
    ts := "20240101_120000"
    now := 0 }

/-- Environment with transport configured and the SMTP attempt raising. -/
def errEnv : SendEnv :=
  { gmail_email := some ("g@example.com")
    gmail_password := some ("app-password")
    smtp := .exn ("connection refused")
    store := .missing
    write_fails := false
    ts := "20240101_120000"
    now := 0 }

theorem lifecycle_tier_crossings_witness :
    demoEnv.write_fails = false
    ∧ ((track_case_status (send_recovery_email sampleInputs demoEnv).2
          (send_recovery_email sampleInputs demoEnv).1.case_id 20).status = "found"
        ∧ (track_case_status (send_recovery_email sampleInputs demoEnv).2
            (send_recovery_email sampleInputs demoEnv).1.case_id 20).current_status
          = tierName sampleInputs.platform (specTier sampleInputs.platform (20 - demoEnv.now)))
    ∧ specTier sampleInputs.platform 0 = 0
    ∧ (∀ d : Int, d < specLowerBound sampleInputs.platform →
        trackTier sampleInputs.platform d = tierName sampleInputs.platform 0)
    ∧ (∀ d : Int, specLowerBound sampleInputs.platform ≤ d →
        d < specUpperBound sampleInputs.platform →
        trackTier sampleInputs.platform d = tierName sampleInputs.platform 1)
    ∧ (∀ d : Int, specUpperBound sampleInputs.platform ≤ d →
        trackTier sampleInputs.platform d = tierName sampleInputs.platform 2)
    ∧ (sampleInputs.platform = "Facebook" →
        specLowerBound sampleInputs.platform = 14 ∧ specUpperBound sampleInputs.platform = 30)
    ∧ (sampleInputs.platform ≠ "Facebook" →
        specLowerBound sampleInputs.platform = 30 ∧ specUpperBound sampleInputs.platform = 90)
    ∧ tierName sampleInputs.platform 0 ≠ tierName sampleInputs.platform 1
    ∧ tierName sampleInputs.platform 1 ≠ tierName sampleInputs.platform 2
    ∧ tierName sampleInputs.platform 0 ≠ tierName sampleInputs.platform 2 :=
  ⟨rfl, lifecycle_tier_crossings sampleInputs demoEnv 20 rfl⟩

/-- C2: with both transport configuration values absent, `send_recovery_email`
returns status `demo`; with transport configured and the SMTP attempt
raising, the exception is caught and the function returns status `error`.
Both results carry the same generated content: the subject line and the
500-character preview of the generated body.  Neither path raises (the
embedded function is total). -/
theorem transport_demo_and_error_outcomes (i : SendInputs) (envD envE : SendEnv)
    (msg : String)
    (hD1 : envD.gmail_email = none) (hD2 : envD.gmail_password = none)
    (hE1 : truthy envE.gmail_email = true) (hE2 : truthy envE.gmail_password = true)
    (hE3 : envE.smtp = .exn msg) :
    ((send_recovery_email i envD).1.status = "demo"
      ∧ (send_recovery_email i envD).1.preview_subject = send_subject i
      ∧ (send_recovery_email i envD).1.preview_body = bodyPreview (send_body i))
    ∧ ((send_recovery_email i envE).1.status = "error"
      ∧ (send_recovery_email i envE).1.preview_subject = send_subject i
      ∧ (send_recovery_email i envE).1.preview_body = bodyPreview (send_body i)) := by
  constructor
  · unfold send_recovery_email
    simp [hD1, truthy]
  · unfold send_recovery_email
    simp [hE1, hE2, hE3]

theorem transport_demo_and_error_outcomes_witness :
    demoEnv.gmail_email = none ∧ demoEnv.gmail_password = none
    ∧ truthy errEnv.gmail_email = true ∧ truthy errEnv.gmail_password = true
    ∧ errEnv.smtp = .exn ("connection refused")
    ∧ (((send_recovery_email sampleInputs demoEnv).1.status = "demo"
        ∧ (send_recovery_email sampleInputs demoEnv).1.preview_subject = send_subject sampleInputs
        ∧ (send_recovery_email sampleInputs demoEnv).1.preview_body
          = bodyPreview (send_body sampleInputs))
      ∧ ((send_recovery_email sampleInputs errEnv).1.status = "error"
        ∧ (send_recovery_email sampleInputs errEnv).1.preview_subject = send_subject sampleInputs
        ∧ (send_recovery_email sampleInputs errEnv).1.preview_body
          = bodyPreview (send_body sampleInputs))) :=
  ⟨rfl, rfl, by decide, by decide, rfl,
   transport_demo_and_error_outcomes sampleInputs demoEnv errEnv ("connection refused")
     rfl rfl (by decide) (by decide) rfl⟩

/-- C3 counterexample: on a store that exists but cannot be parsed, the read
path of `track_case_status` returns the structured `error` result
(agent.py lines 389-393), not a not-found-style result, refuting the claim
that a corrupt store is treated as an empty store on this read path. -/
theorem corrupt_store_read_is_error :
    (track_case_status .corrupt ("GOOGLE_20241218_143052") 0).status = "error"
    ∧ (track_case_status .corrupt ("GOOGLE_20241218_143052") 0).status ≠ "not_found" :=
  ⟨rfl, by decide⟩

/-- C3 amended: a missing store is treated exactly like an empty store on
the read path (both produce a structured `not_found` result), while a store
that exists but is unreadable or corrupt produces a structured `error`
result; in every case the outcome is a returned value, never a raised
fault (the embedded read path is a total function). -/
theorem missing_store_reads_as_empty (cid : String) (now : Int) :
    (track_case_status .missing cid now).status = "not_found"
    ∧ (track_case_status (.ok []) cid now).status = "not_found"
    ∧ (track_case_status .corrupt cid now).status = "error" :=
  ⟨rfl, rfl, rfl⟩

/-- C9 counterexample: the negation of the claimed existential.  No stored
case and no query time make any of the day counts interpolated into the
remaining-time estimate negative: every `bound - days_elapsed` subtraction
in `track_case_status` sits under the guard `days_elapsed < bound` for a
bound no larger than the one subtracted from. -/
theorem negative_estimate_impossible :
    ¬ ∃ (platform : String) (d n : Int), n ∈ estimateNumbers platform d ∧ n < 0 := by
  rintro ⟨p, d, n, hm, hneg⟩
  exact absurd hneg (not_lt.mpr (le_of_lt (estimateNumbers_pos p d n hm)))

/-- C9 amended: every day count appearing in the remaining-time estimate of
`track_case_status` is strictly positive, for every platform and every
elapsed-day value (even a negative one); no clamping is needed because each
subtraction is guarded by the corresponding tier condition. -/
theorem estimate_numbers_always_positive (platform : String) (d : Int) :
    ∀ n ∈ estimateNumbers platform d, 0 < n :=
  estimateNumbers_pos platform d

theorem estimate_numbers_always_positive_witness :
    (14 : Int) ∈ estimateNumbers ("Facebook") 0 ∧ (0 : Int) < 14 :=
  ⟨by decide, estimate_numbers_always_positive ("Facebook") 0 14 (by decide)⟩

/-- C10: the result dictionary of `send_recovery_email` is completely
independent of the state of the tracking store and of whether rewriting it
raises: a lost or failed persistence step never changes the returned status
or loses the generated artifact, because the `try` of agent.py lines
116-139 catches every storage failure before the result is built. -/
theorem persistence_independent_result (i : SendInputs) (env : SendEnv)
    (st : StoreState) (wf : Bool) :
    (send_recovery_email i { env with store := st, write_fails := wf }).1
      = (send_recovery_email i env).1 := rfl

/-- The recovery-info sub-record copied onto every candidate asset
(discovery_tools.py, `recovery_info` keys). -/
structure RecoveryInfo where
  timeline : String
  required_documents : List String
  success_rate : Nat
  estimated_value : String
deriving DecidableEq

/-- One row of the platform database of `discover_digital_assets`
(discovery_tools.py lines 19-68). -/
structure PlatformEntry where
  name : String
  services : List String
  recovery_time : String
  required_docs : List String
  success_rate : Nat
  estimated_value : String
deriving DecidableEq

def platform_database : List (String × PlatformEntry) :=
  [(("google.com"),
    { name := "Google"
      services := ["Gmail", "Google Drive", "Google Photos", "YouTube", "Google Pay"]
      recovery_time := "30-90 days"
      required_docs := ["Death certificate", "Government ID", "Proof of relationship"]
      success_rate := 85
      estimated_value := "High - Contains photos, documents, email history" }),
   (("facebook.com"),
    { name := "Facebook/Meta"
      services := ["Facebook", "Instagram", "WhatsApp", "Threads"]
      recovery_time := "14-30 days"
      required_docs := ["Death certificate", "Government ID", "Proof of relationship"]
      success_rate := 80
      estimated_value := "Medium - Social memories, photos, messages" }),
   (("apple.com"),
    { name := "Apple"
      services := ["iCloud", "iTunes", "App Store", "Apple Pay"]
      recovery_time := "60-180 days"
      required_docs := ["Court order required in most cases"]
      success_rate := 60
      estimated_value := "High - Photos, purchases, device backups" }),
   (("microsoft.com"),
    { name := "Microsoft"
      services := ["Outlook", "OneDrive", "Xbox", "Office 365"]
      recovery_time := "30-60 days"
      required_docs := ["Death certificate", "Government ID", "Proof of relationship"]
      success_rate := 75
      estimated_value := "Medium - Documents, email, gaming accounts" }),
   (("amazon.com"),
    { name := "Amazon"
      services := ["Amazon Prime", "Kindle", "AWS", "Amazon Photos"]
      recovery_time := "30-45 days"
      required_docs := ["Death certificate", "Government ID"]
      success_rate := 70
      estimated_value := "Medium - Purchase history, digital content" }),
   (("paypal.com"),
    { name := "PayPal"
      services := ["PayPal Account", "Venmo"]
      recovery_time := "45-60 days"
      required_docs := ["Death certificate", "Estate documentation"]
      success_rate := 90
      estimated_value := "High - Financial assets, transaction history" })]

/-- One candidate asset emitted by `discover_digital_assets`. -/
structure Asset where
  platform : String
  platform_name : String
  services : List String
  account_identifier : String
  confidence_score : ℚ
  discovery_method : String
  recovery_info : RecoveryInfo
  priority : String
deriving DecidableEq

/-- A domain-match candidate (discovery_tools.py lines 81-95). -/
def mkDomainAsset (p : String) (info : PlatformEntry) (email : String) : Asset :=
  { platform := p
    platform_name := info.name
    services := info.services
    account_identifier := email
    confidence_score := 0.95
    discovery_method := "Email domain analysis"
    recovery_info :=
      { timeline := info.recovery_time
        required_documents := info.required_docs
        success_rate := info.success_rate
        estimated_value := info.estimated_value }
    priority := if info.success_rate > 80 then "HIGH" else "MEDIUM" }

/-- Step 1 of `discover_digital_assets` (discovery_tools.py lines 74-95):
for every email carrying an `@`, take the part after the first `@`, lower
it, and emit a candidate for every platform key occurring in it as a
substring. -/
def domainAssets (emails : List String) : List Asset :=
  (emails.map (fun email =>
    if email.data.contains '@' then
      let domain := String.mk (((splitChar '@' email.data).getD 1 []).map Char.toLower)
      platform_database.filterMap (fun pe =>
        if strIn pe.1 domain then some (mkDomainAsset pe.1 pe.2 email) else none)
    else [])).flatten

/-- `platform_database[platform]` for the fixed common keys; the default is
unreachable because the three common platforms are all table keys. -/
def dbEntry (p : String) : PlatformEntry :=
  (platform_database.lookup p).getD
    { name := ""
      services := []
      recovery_time := ""
      required_docs := []
      success_rate := 0
      estimated_value := "" }

/-- A common-platform-inference candidate
(discovery_tools.py lines 100-116). -/
def mkCommonAsset (p : String) (info : PlatformEntry) : Asset :=
  { platform := p
    platform_name := info.name
    services := info.services
    account_identifier := "To be determined"
    confidence_score := 0.75
    discovery_method := "Common platform inference"
    recovery_info :=
      { timeline := info.recovery_time
        required_documents := info.required_docs
        success_rate := info.success_rate
        estimated_value := info.estimated_value }
    priority := "MEDIUM" }

def common_platforms : List String := [("google.com"), ("facebook.com"), ("amazon.com")]

/-- Step 2 as the source loop runs it: each common platform is appended
only if no candidate accumulated so far already names it. -/
def commonFold (ps : List String) (assets : List Asset) : List Asset :=
  ps.foldl (fun acc p =>
    if acc.any (fun a => a.platform == p) then acc
    else acc ++ [mkCommonAsset p (dbEntry p)]) assets

def addCommonAssets (assets : List Asset) : List Asset :=
  commonFold common_platforms assets

def business_keywords : List String :=
  ["business", "company", "freelance", "consultant", "LLC", "Inc"]

def financial_keywords : List String :=
  ["investment", "trading", "crypto", "bitcoin", "stock", "401k"]

/-- `any(keyword.lower() in known_info.lower() for keyword in keywords)`. -/
def hasKeyword (kws : List String) (info : String) : Bool :=
  kws.any (fun kw => strIn (strLower kw) (strLower info))

/-- The fixed LinkedIn candidate appended on a business-keyword hit
(discovery_tools.py lines 126-140). -/
def linkedinAsset : Asset :=
  { platform := "linkedin.com"
    platform_name := "LinkedIn"
    services := ["Professional Network", "LinkedIn Premium"]
    account_identifier := "Professional profile"
    confidence_score := 0.80
    discovery_method := "Business context analysis"
    recovery_info :=
      { timeline := "30-45 days"
        required_documents := ["Death certificate", "Business documentation"]
        success_rate := 75
        estimated_value := "Medium - Professional contacts, business content" }
    priority := "MEDIUM" }

/-- The fixed domain-portfolio candidate appended on a business-keyword hit
(discovery_tools.py lines 141-155). -/
def domainRegistrarAsset : Asset :=
  { platform := "domain_registrar"
    platform_name := "Domain Portfolio"
    services := ["Website domains", "Email hosting"]
    account_identifier := "Various registrars"
    confidence_score := 0.60
    discovery_method := "Business context analysis"
    recovery_info :=
      { timeline := "60-90 days"
        required_documents := ["Death certificate", "Business ownership proof"]
        success_rate := 65
        estimated_value := "Variable - Depends on domain value" }
    priority := "MEDIUM" }

/-- The fixed cryptocurrency candidate appended on a financial-keyword hit
(discovery_tools.py lines 160-174): HIGH priority despite a low numeric
success rate. -/
def cryptoAsset : Asset :=
  { platform := "cryptocurrency_exchanges"
    platform_name := "Cryptocurrency Accounts"
    services := ["Coinbase", "Binance", "Kraken", "Hardware wallets"]
    account_identifier := "Multiple exchanges possible"
    confidence_score := 0.70
    discovery_method := "Financial context analysis"
    recovery_info :=
      { timeline := "90-180 days"
        required_documents := ["Death certificate", "Court order", "Estate documentation"]
        success_rate := 30
        estimated_value := "Variable - Could be significant" }
    priority := "HIGH" }

/-- Steps 3 and 4 of `discover_digital_assets`
(discovery_tools.py lines 119-174), guarded by the truthiness of
`known_info`. -/
def addContextAssets (assets : List Asset) (known_info : String) : List Asset :=
  if known_info.data.isEmpty then assets
  else
    let a1 :=
      if hasKeyword business_keywords known_info then
        assets ++ [linkedinAsset, domainRegistrarAsset]
      else assets
    if hasKeyword financial_keywords known_info then a1 ++ [cryptoAsset] else a1

/-- The descending sort order of step 5
(`sort(key=lambda x: (x["priority"] == "HIGH", x["confidence_score"]), reverse=True)`):
the left element may stay before the right one. -/
def assetGe (a b : Asset) : Prop :=
  (a.priority = "HIGH" ∧ ¬b.priority = "HIGH")
  ∨ ((a.priority = "HIGH" ↔ b.priority = "HIGH") ∧ b.confidence_score ≤ a.confidence_score)

instance : DecidableRel assetGe := fun a b => by unfold assetGe; infer_instance

/-- The stable descending sort of step 5 (discovery_tools.py line 177). -/
def sortAssets (l : List Asset) : List Asset := List.insertionSort assetGe l

/-- The result dictionary of `discover_digital_assets`; the
`discovery_date` wall-clock string is omitted. -/
structure DiscoverResult where
  status : String
  deceased_name : String
  total_assets_discovered : Nat
  high_priority_assets : Nat
  discovered_assets : List Asset
  next_steps : List String
  estimated_total_recovery_time : String
deriving DecidableEq

/-- `discover_digital_assets` (discovery_tools.py lines 6-193). -/
def discover_digital_assets (deceased_name : String) (deceased_emails : List String)
    (known_info : String) : DiscoverResult :=
  let assets :=
    sortAssets (addContextAssets (addCommonAssets (domainAssets deceased_emails)) known_info)
  { status := "success"
    deceased_name := deceased_name
    total_assets_discovered := assets.length
    high_priority_assets := (assets.filter (fun a => a.priority == "HIGH")).length
    discovered_assets := assets
    next_steps :=
      ["Prepare legal documentation for high-priority assets",
       "Contact family to confirm executor status",
       "Begin recovery process for financial accounts",
       "Set up memorial accounts for social media"]
    estimated_total_recovery_time := "60-180 days depending on platforms and legal complexity" }

/-- The pair the duplicate-entry invariant of the spec speaks about. -/
def pairPM (a : Asset) : String × String := (a.platform, a.discovery_method)

theorem domainAssets_method (emails : List String) :
    ∀ a ∈ domainAssets emails, a.discovery_method = "Email domain analysis" := by
  intro a ha
  simp only [domainAssets, List.mem_flatten, List.mem_map] at ha
  obtain ⟨l, ⟨e, he, hl⟩, hal⟩ := ha
  subst hl
  split at hal
  · simp only [List.mem_filterMap] at hal
    obtain ⟨pe, hpe, hsome⟩ := hal
    split at hsome
    · cases hsome
      rfl
    · cases hsome
  · cases hal

theorem commonFold_mem (ps : List String) :
    ∀ (init : List Asset) (a : Asset), a ∈ commonFold ps init →
      a ∈ init ∨ a.discovery_method = "Common platform inference" := by
  induction ps with
  | nil =>
    intro init a h
    exact Or.inl (by simpa [commonFold] using h)
  | cons p t ih =>
    intro init a h
    rw [commonFold, List.foldl_cons] at h
    rcases ih _ a (by rw [commonFold]; exact h) with h' | h'
    · split at h'
      · exact Or.inl h'
      · rcases List.mem_append.mp h' with h'' | h''
        · exact Or.inl h''
        · simp only [List.mem_singleton] at h''
          subst h''
          exact Or.inr rfl
    · exact Or.inr h'

theorem commonFold_pairs_nodup (ps : List String) :
    ∀ init : List Asset, (init.map pairPM).Nodup →
      ((commonFold ps init).map pairPM).Nodup := by
  induction ps with
  | nil =>
    intro init h
    simpa [commonFold] using h
  | cons p t ih =>
    intro init h
    rw [commonFold, List.foldl_cons]
    have step_nodup :
        ((if init.any (fun a => a.platform == p) then init
          else init ++ [mkCommonAsset p (dbEntry p)]).map pairPM).Nodup := by
      split
      · exact h
      · rename_i hany
        have hplat : ∀ a ∈ init, a.platform ≠ p := by
          intro a ha heq
          exact hany (List.any_eq_true.mpr ⟨a, ha, by simp [heq]⟩)
        rw [List.map_append, List.nodup_append]
        refine ⟨h, List.nodup_singleton _, ?_⟩
        intro x hx hx'
        simp only [List.map_cons, List.map_nil, List.mem_singleton] at hx'
        subst hx'
        simp only [List.mem_map] at hx
        obtain ⟨a, ha, hpa⟩ := hx
        exact hplat a ha (congrArg Prod.fst hpa)
    simp only [commonFold] at ih
    exact ih _ step_nodup

theorem pairs_nodup_append_ctx (l xs : List Asset)
    (hl : (l.map pairPM).Nodup) (hxs : (xs.map pairPM).Nodup)
    (hdisj : ∀ a ∈ l, ∀ x ∈ xs, pairPM a ≠ pairPM x) :
    ((l ++ xs).map pairPM).Nodup := by
  rw [List.map_append, List.nodup_append]
  refine ⟨hl, hxs, ?_⟩
  intro y hy hy'
  obtain ⟨a, ha, rfl⟩ := List.mem_map.mp hy
  obtain ⟨x, hx, hpx⟩ := List.mem_map.mp hy'
  exact hdisj a ha x hx hpx.symm

theorem pairs_nodup_append_by_method (l xs : List Asset)
    (hl : (l.map pairPM).Nodup) (hxs : (xs.map pairPM).Nodup)
    (hdisj : ∀ a ∈ l, ∀ x ∈ xs, a.discovery_method ≠ x.discovery_method) :
    ((l ++ xs).map pairPM).Nodup :=
  pairs_nodup_append_ctx l xs hl hxs
    (fun a ha x hx heq => hdisj a ha x hx (congrArg Prod.snd heq))

/-- C4 counterexample: two emails on the same domain produce two candidates
for the same platform through the same discovery method, so the claimed
invariant fails on the input
`deceased_emails = ["a@google.com", "b@google.com"]`. -/
theorem discovery_duplicate_pairs :
    ¬ (((discover_digital_assets ("John") [("a@google.com"), ("b@google.com")]
          ("")).discovered_assets).map pairPM).Nodup := by
  have hpre : (discover_digital_assets ("John") [("a@google.com"), ("b@google.com")]
        ("")).discovered_assets
      = sortAssets
          [mkDomainAsset ("google.com") (dbEntry ("google.com")) ("a@google.com"),
           mkDomainAsset ("google.com") (dbEntry ("google.com")) ("b@google.com"),
           mkCommonAsset ("facebook.com") (dbEntry ("facebook.com")),
           mkCommonAsset ("amazon.com") (dbEntry ("amazon.com"))] := rfl
  have hsort : sortAssets
          [mkDomainAsset ("google.com") (dbEntry ("google.com")) ("a@google.com"),
           mkDomainAsset ("google.com") (dbEntry ("google.com")) ("b@google.com"),
           mkCommonAsset ("facebook.com") (dbEntry ("facebook.com")),
           mkCommonAsset ("amazon.com") (dbEntry ("amazon.com"))]
      = [mkDomainAsset ("google.com") (dbEntry ("google.com")) ("a@google.com"),
         mkDomainAsset ("google.com") (dbEntry ("google.com")) ("b@google.com"),
         mkCommonAsset ("facebook.com") (dbEntry ("facebook.com")),
         mkCommonAsset ("amazon.com") (dbEntry ("amazon.com"))] := by
    norm_num [sortAssets, List.insertionSort, List.orderedInsert, assetGe,
      mkDomainAsset, mkCommonAsset, dbEntry, platform_database, List.lookup]
  rw [hpre, hsort]
  decide

/-- C4 amended: whenever the domain-match phase matches each platform at
most once (no two emails hit the same platform), the full candidate list of
`discover_digital_assets` never contains two entries with the same platform
and the same discovery method: the common-platform loop skips platforms
already present, and the keyword phases append fixed candidates whose
discovery methods differ from every earlier one. -/
theorem discovery_pairs_nodup_of_distinct_matches (name info : String)
    (emails : List String)
    (h : ((domainAssets emails).map (fun a => a.platform)).Nodup) :
    (((discover_digital_assets name emails info).discovered_assets).map pairPM).Nodup := by
  have hperm : List.Perm
      (((discover_digital_assets name emails info).discovered_assets).map pairPM)
      ((addContextAssets (addCommonAssets (domainAssets emails)) info).map pairPM) :=
    (List.perm_insertionSort assetGe _).map pairPM
  rw [hperm.nodup_iff]
  have h1 : ((domainAssets emails).map pairPM).Nodup := by
    have hcong : (domainAssets emails).map pairPM
        = (domainAssets emails).map
            (fun a => (a.platform, ("Email domain analysis" : String))) :=
      List.map_congr_left (fun a ha => by
        unfold pairPM
        rw [domainAssets_method emails a ha])
    rw [hcong, show (fun a : Asset => (a.platform, ("Email domain analysis" : String)))
        = (fun p => (p, ("Email domain analysis" : String))) ∘ (fun a => a.platform) from rfl,
      ← List.map_map]
    exact h.map (fun p q hpq => congrArg Prod.fst hpq)
  have h2 := commonFold_pairs_nodup common_platforms (domainAssets emails) h1
  have hm : ∀ a ∈ addCommonAssets (domainAssets emails),
      a.discovery_method = "Email domain analysis"
      ∨ a.discovery_method = "Common platform inference" := by
    intro a ha
    rcases commonFold_mem common_platforms (domainAssets emails) a ha with h' | h'
    · exact Or.inl (domainAssets_method emails a h')
    · exact Or.inr h'
  unfold addContextAssets
  split
  · exact h2
  · have hbiz : ((addCommonAssets (domainAssets emails)
        ++ [linkedinAsset, domainRegistrarAsset]).map pairPM).Nodup := by
      apply pairs_nodup_append_by_method _ _ h2 (by decide)
      intro a ha x hx
      rcases hm a ha with h' | h' <;>
        · simp only [List.mem_cons, List.mem_singleton, List.not_mem_nil, or_false] at hx
          rcases hx with rfl | rfl <;> simp [h', linkedinAsset, domainRegistrarAsset]
    have hmbiz : ∀ a ∈ addCommonAssets (domainAssets emails)
        ++ [linkedinAsset, domainRegistrarAsset],
        a.discovery_method ≠ "Financial context analysis" := by
      intro a ha
      rcases List.mem_append.mp ha with ha' | ha'
      · rcases hm a ha' with h' | h' <;> simp [h']
      · simp only [List.mem_cons, List.mem_singleton, List.not_mem_nil, or_false] at ha'
        rcases ha' with rfl | rfl <;> decide
    split
    · split
      · apply pairs_nodup_append_by_method _ _ hbiz (by decide)
        intro a ha x hx
        simp only [List.mem_singleton] at hx
        subst hx
        intro heq
        exact hmbiz a ha heq
      · exact hbiz
    · split
      · apply pairs_nodup_append_by_method _ _ h2 (by decide)
        intro a ha x hx
        simp only [List.mem_singleton] at hx
        subst hx
        rcases hm a ha with h' | h' <;> simp [h', cryptoAsset]
      · exact h2

theorem discovery_pairs_nodup_witness :
    ((domainAssets [("a@google.com")]).map (fun a => a.platform)).Nodup
    ∧ (((discover_digital_assets ("Jane Doe") [("a@google.com")]
          ("")).discovered_assets).map pairPM).Nodup :=
  ⟨by decide,
   discovery_pairs_nodup_of_distinct_matches ("Jane Doe") ("") [("a@google.com")]
     (by decide)⟩

/-- C6: with `deceased_emails = ["a@google.com"]` and no extra information,
`discover_digital_assets` returns exactly one domain-match candidate for
google.com at confidence 0.95 carrying the matching email as identifier,
followed by one inferred candidate at confidence 0.75 with identifier
"To be determined" for each common platform not matched by the email
domain: facebook.com and amazon.com. -/
theorem discover_google_email_exact :
    ((discover_digital_assets ("Jane Doe") [("a@google.com")] ("")).discovered_assets).map
      (fun a => (a.platform, a.discovery_method, a.account_identifier, a.confidence_score))
    = [(("google.com"), ("Email domain analysis"), ("a@google.com"), (0.95 : ℚ)),
       (("facebook.com"), ("Common platform inference"), ("To be determined"), (0.75 : ℚ)),
       (("amazon.com"), ("Common platform inference"), ("To be determined"), (0.75 : ℚ))] := by
  have hpre : (discover_digital_assets ("Jane Doe") [("a@google.com")] ("")).discovered_assets
      = sortAssets
          [mkDomainAsset ("google.com") (dbEntry ("google.com")) ("a@google.com"),
           mkCommonAsset ("facebook.com") (dbEntry ("facebook.com")),
           mkCommonAsset ("amazon.com") (dbEntry ("amazon.com"))] := rfl
  have hsort : sortAssets
          [mkDomainAsset ("google.com") (dbEntry ("google.com")) ("a@google.com"),
           mkCommonAsset ("facebook.com") (dbEntry ("facebook.com")),
           mkCommonAsset ("amazon.com") (dbEntry ("amazon.com"))]
      = [mkDomainAsset ("google.com") (dbEntry ("google.com")) ("a@google.com"),
         mkCommonAsset ("facebook.com") (dbEntry ("facebook.com")),
         mkCommonAsset ("amazon.com") (dbEntry ("amazon.com"))] := by
    norm_num [sortAssets, List.insertionSort, List.orderedInsert, assetGe,
      mkDomainAsset, mkCommonAsset, dbEntry, platform_database, List.lookup]
  rw [hpre, hsort]
  rfl

/-- One lawyer record of the static directory (agent.py lines 563-700).
The last three fields are the annotations added after ranking
(agent.py lines 740-758); before annotation they keep their defaults,
matching the keys being absent from the source dicts. -/
structure Lawyer where
  name : String
  firm : String
  specialties : List String
  address : String
  phone : String
  email : String
  website : String
  years_experience : Nat
  rating : ℚ
  consultation_fee : String
  distance_miles : ℚ
  notable : String
  typical_response_time : String := ""
  emergency_available : Bool := false
  digital_estate_expertise : String := ""
deriving DecidableEq

def lawyer_database : List (String × List Lawyer) :=
  [(("021"),
    [{ name := "Sarah J. Mitchell, Esq."
       firm := "Mitchell & Associates Estate Law"
       specialties := ["probate", "estate planning", "digital assets"]
       address := "100 Federal Street, Suite 1900, Boston, MA 02110"
       phone := "(617) 555-0123"
       email := "smitchell@mitchellestatelaw.com"
       website := "www.mitchellestatelaw.com"
       years_experience := 15
       rating := 4.8
       consultation_fee := "$350"
       distance_miles := 2.3
       notable := "Certified specialist in digital asset inheritance" },
     { name := "Robert Chen, JD, LLM"
       firm := "Chen Legal Group"
       specialties := ["probate", "trust administration", "tax law"]
       address := "1 Boston Place, Suite 2700, Boston, MA 02108"
       phone := "(617) 555-0456"
       email := "rchen@chenlegal.com"
       website := "www.chenlegal.com"
       years_experience := 22
       rating := 4.9
       consultation_fee := "Free initial consultation"
       distance_miles := 3.1
       notable := "Former probate court judge" },
     { name := "Maria Rodriguez, Esq."
       firm := "Rodriguez & Partners LLP"
       specialties := ["probate", "estate planning", "elder law"]
       address := "200 State Street, Boston, MA 02109"
       phone := "(617) 555-0789"
       email := "mrodriguez@rodriguezlaw.com"
       website := "www.rodriguezlaw.com"
       years_experience := 18
       rating := 4.7
       consultation_fee := "$250"
       distance_miles := 4.5
       notable := "Bilingual services (English/Spanish)" }]),
   (("100"),
    [{ name := "James Harrison, Esq."
       firm := "Harrison & Stone Estate Attorneys"
       specialties := ["probate", "estate litigation", "digital assets"]
       address := "445 Park Avenue, 9th Floor, New York, NY 10022"
       phone := "(212) 555-0111"
       email := "jharrison@hsestatelaw.com"
       website := "www.hsestatelaw.com"
       years_experience := 25
       rating := 4.9
       consultation_fee := "$500"
       distance_miles := 1.8
       notable := "Published author on digital estate planning" },
     { name := "Dr. Lisa Wang, JD, PhD"
       firm := "Wang International Estate Law"
       specialties := ["probate", "international estates", "cryptocurrency"]
       address := "1 Wall Street, Suite 1500, New York, NY 10005"
       phone := "(212) 555-0222"
       email := "lwang@wangestatelaw.com"
       website := "www.wangestatelaw.com"
       years_experience := 12
       rating := 4.8
       consultation_fee := "$450"
       distance_miles := 5.2
       notable := "Expert in cryptocurrency inheritance" }]),
   (("900"),
    [{ name := "Michael Thompson, Esq."
       firm := "Thompson Probate Law Center"
       specialties := ["probate", "trust administration", "conservatorship"]
       address := "333 South Grand Avenue, Suite 3600, Los Angeles, CA 90071"
       phone := "(213) 555-0333"
       email := "mthompson@thompsonprobate.com"
       website := "www.thompsonprobate.com"
       years_experience := 20
       rating := 4.7
       consultation_fee := "$400"
       distance_miles := 3.4
       notable := "24/7 emergency probate services" },
     { name := "Amanda Foster, JD"
       firm := "Foster & Associates"
       specialties := ["probate", "estate planning", "entertainment law"]
       address := "10100 Santa Monica Blvd, Suite 2200, Los Angeles, CA 90067"
       phone := "(310) 555-0444"
       email := "afoster@fosterlaw.com"
       website := "www.fosterlaw.com"
       years_experience := 16
       rating := 4.8
       consultation_fee := "Free 30-minute consultation"
       distance_miles := 8.7
       notable := "Specializes in entertainment industry estates" }]),
   (("750"),
    [{ name := "David Martinez, Esq."
       firm := "Martinez Estate Law Group"
       specialties := ["probate", "estate planning", "business succession"]
       address := "401 Congress Avenue, Suite 2100, Austin, TX 78701"
       phone := "(512) 555-0555"
       email := "dmartinez@martinezestatelaw.com"
       website := "www.martinezestatelaw.com"
       years_experience := 19
       rating := 4.9
       consultation_fee := "$300"
       distance_miles := 2.1
       notable := "Board certified in estate planning" }]),
   (("600"),
    [{ name := "Patricia O\x27Brien, JD, CPA"
       firm := "O\x27Brien Tax & Estate Law"
       specialties := ["probate", "estate tax", "trust administration"]
       address := "233 S Wacker Drive, Suite 8400, Chicago, IL 60606"
       phone := "(312) 555-0666"
       email := "pobrien@obrienlaw.com"
       website := "www.obrienlaw.com"
       years_experience := 23
       rating := 4.8
       consultation_fee := "$375"
       distance_miles := 4.2
       notable := "Dual licensed attorney and CPA" }])]

/-- The static adjacency table of 3-digit area keys
(agent.py lines 711-718). -/
def nearby_prefixes : List (String × String) :=
  [(("022"), ("021")),
   (("024"), ("021")),
   (("101"), ("100")),
   (("902"), ("900")),
   (("787"), ("750")),
   (("606"), ("600"))]

/-- `zipcode[:3] if len(zipcode) >= 3 else ""` (agent.py line 703). -/
def zipArea (zipcode : String) : String :=
  if zipcode.length ≥ 3 then String.mk (zipcode.data.take 3) else ""

/-- The area list used by `find_nearby_lawyers` (agent.py lines 706-725):
the direct area, or, when that is empty, the adjacent area with every
distance increased by the fixed penalty of 10. -/
def candidateArea (zipcode : String) : List Lawyer :=
  let zp := zipArea zipcode
  let area0 := (lawyer_database.lookup zp).getD []
  if area0.isEmpty then
    match nearby_prefixes.lookup zp with
    | some alt =>
        ((lawyer_database.lookup alt).getD []).map
          (fun lw => { lw with distance_miles := lw.distance_miles + 10 })
    | none => []
  else area0

/-- The descending sort order of
`sort(key=lambda x: (x["rating"], -x["distance_miles"]), reverse=True)`
(agent.py lines 734-737): the left element may stay before the right one. -/
def lawyerGe (a b : Lawyer) : Prop :=
  b.rating < a.rating ∨ (b.rating = a.rating ∧ -b.distance_miles ≤ -a.distance_miles)

instance : DecidableRel lawyerGe := fun a b => by unfold lawyerGe; infer_instance

instance : IsTotal Lawyer lawyerGe :=
  ⟨fun a b => by
    unfold lawyerGe
    rcases lt_trichotomy a.rating b.rating with h | h | h
    · exact Or.inr (Or.inl h)
    · rcases le_total (-a.distance_miles) (-b.distance_miles) with h' | h'
      · exact Or.inr (Or.inr ⟨h, h'⟩)
      · exact Or.inl (Or.inr ⟨h.symm, h'⟩)
    · exact Or.inl (Or.inl h)⟩

instance : IsTrans Lawyer lawyerGe :=
  ⟨fun a b c hab hbc => by
    unfold lawyerGe at *
    rcases hab with h1 | ⟨h1, h1'⟩ <;> rcases hbc with h2 | ⟨h2, h2'⟩
    · exact Or.inl (h2.trans h1)
    · exact Or.inl (h2 ▸ h1)
    · exact Or.inl (h1 ▸ h2)
    · exact Or.inr ⟨h2.trans h1, h2'.trans h1'⟩⟩

/-- The stable descending sort of agent.py lines 734-737. -/
def sortLawyers (l : List Lawyer) : List Lawyer := List.insertionSort lawyerGe l

/-- The presentation annotations added to each surviving entry
(agent.py lines 740-758). -/
def annotate (lw : Lawyer) : Lawyer :=
  { lw with
    typical_response_time :=
      if lw.rating ≥ 4.8 then "Same day"
      else if lw.rating ≥ 4.5 then "1-2 business days"
      else "2-3 business days"
    emergency_available := lw.years_experience > 15
    digital_estate_expertise :=
      if lw.specialties.contains ("digital assets")
          || lw.specialties.contains ("cryptocurrency") then "Expert"
      else if lw.years_experience > 20 then "Experienced"
      else "Familiar" }

/-- `_calculate_average_fee` helper: the numeric amount of one fee string,
`none` when Python would skip the entry (agent.py lines 535-542). -/
def feeAmount (fee : String) : Option Nat :=
  if strIn ("$") fee && !strIn ("Free") fee then
    digitsNat (((splitChar ' ' (fee.data.filter (fun c => c != '$'))).filter
      (fun w => !w.isEmpty)).headD [])
  else none

/-- `_calculate_average_fee` (agent.py lines 532-547): integer-truncated
mean over the numeric, non-free fees, or the "Varies" sentinel. -/
def calculateAverageFee (lawyers : List Lawyer) : String :=
  let fees := lawyers.filterMap (fun lw => feeAmount lw.consultation_fee)
  if fees.isEmpty then "Varies"
  else "$" ++ toString (fees.sum / fees.length)

/-- The result dictionary of `find_nearby_lawyers`. -/
structure FindResult where
  status : String
  zipcode : String
  search_radius_miles : ℚ
  lawyers_found : Nat
  lawyers : List Lawyer
  search_tips : List String
  questions_to_ask : List String
  average_consultation_fee : String
  disclaimer : String
deriving DecidableEq

/-- `find_nearby_lawyers` (agent.py lines 549-781): area lookup with
adjacency fallback, radius filter, combined descending sort, annotation,
top-5 cut and fee aggregation.  The `specialty` argument is accepted and,
as in the source, never filtered on. -/
def find_nearby_lawyers (zipcode : String) (radius_miles : ℚ) (specialty : String) :
    FindResult :=
  let filtered := (candidateArea zipcode).filter
    (fun lw => decide (lw.distance_miles ≤ radius_miles))
  let sorted := sortLawyers filtered
  let annotated := sorted.map annotate
  { status := "success"
    zipcode := zipcode
    search_radius_miles := radius_miles
    lawyers_found := annotated.length
    lawyers := annotated.take 5
    search_tips :=
      ["Contact 2-3 lawyers for consultations to find the best fit",
       "Ask about experience with digital asset recovery",
       "Inquire about flat fee vs hourly billing options",
       "Verify state bar membership and any specializations"]
    questions_to_ask :=
      ["What is your experience with digital estate recovery?",
       "Do you handle platform-specific recovery requests?",
       "What are your fees for probate administration?",
       "Can you assist with out-of-state digital assets?",
       "What is your typical timeline for probate completion?"]
    average_consultation_fee := calculateAverageFee annotated
    disclaimer := "This is a simulated list. In production, verify all lawyer credentials through state bar associations." }

/-- Synthetic entry used to exhibit the tie-break order: rated 4.5 at
distance 2. -/
def nearLawyer : Lawyer :=
  { name := "Near Lawyer"
    firm := "Near Firm"
    specialties := ["probate"]
    address := "1 Near Street"
    phone := "(000) 555-0001"
    email := "near@example.com"
    website := "www.near.example.com"
    years_experience := 10
    rating := 4.5
    consultation_fee := "$100"
    distance_miles := 2
    notable := "" }

/-- Synthetic entry used to exhibit the tie-break order: rated 4.5 at
distance 5. -/
def farLawyer : Lawyer :=
  { name := "Far Lawyer"
    firm := "Far Firm"
    specialties := ["probate"]
    address := "1 Far Street"
    phone := "(000) 555-0002"
    email := "far@example.com"
    website := "www.far.example.com"
    years_experience := 10
    rating := 4.5
    consultation_fee := "$100"
    distance_miles := 5
    notable := "" }

/-- The ordering the claim asserts for the ranking step: among entries of
equal rating, the farther one precedes the closer one. -/
def fartherFirstOnTies (l : List Lawyer) : Prop :=
  l.Pairwise (fun a b => a.rating = b.rating → b.distance_miles ≤ a.distance_miles)

/-- C5 counterexample: the sort step of `find_nearby_lawyers` applied to two
entries of equal rating puts the CLOSER one first (the key
`(rating, -distance)` under `reverse=True` is descending in rating but
ascending in distance), refuting the claimed farther-first tie-break at the
concrete input `[farLawyer, nearLawyer]`. -/
theorem ranking_tiebreak_farther_first_fails :
    sortLawyers [farLawyer, nearLawyer] = [nearLawyer, farLawyer]
    ∧ farLawyer.rating = nearLawyer.rating
    ∧ nearLawyer.distance_miles < farLawyer.distance_miles
    ∧ ¬ fartherFirstOnTies (sortLawyers [farLawyer, nearLawyer]) := by
  have hs : sortLawyers [farLawyer, nearLawyer] = [nearLawyer, farLawyer] := by
    norm_num [sortLawyers, List.insertionSort, List.orderedInsert, lawyerGe,
      nearLawyer, farLawyer]
  refine ⟨hs, by norm_num [nearLawyer, farLawyer], by norm_num [nearLawyer, farLawyer], ?_⟩
  rw [hs]
  intro hp
  have h1 := (List.pairwise_cons.mp hp).1 farLawyer (by simp)
  have h2 := h1 (by norm_num [nearLawyer, farLawyer])
  norm_num [nearLawyer, farLawyer] at h2

theorem find_lawyers_within_radius (zipcode : String) (radius : ℚ) (specialty : String) :
    ∀ lw ∈ (find_nearby_lawyers zipcode radius specialty).lawyers,
      lw.distance_miles ≤ radius := by
  intro lw hlw
  have h1 : lw ∈ (sortLawyers ((candidateArea zipcode).filter
      (fun l => decide (l.distance_miles ≤ radius)))).map annotate :=
    List.mem_of_mem_take hlw
  obtain ⟨lw0, hlw0, rfl⟩ := List.mem_map.mp h1
  have h2 : lw0 ∈ (candidateArea zipcode).filter
      (fun l => decide (l.distance_miles ≤ radius)) := by
    simpa [sortLawyers] using hlw0
  have h3 := List.of_mem_filter h2
  exact of_decide_eq_true h3

/-- C5 amended: the returned list of `find_nearby_lawyers` is ordered by
strictly descending rating, and among entries of equal rating the CLOSER
one precedes the farther one (ascending distance), for every zipcode,
radius and specialty.  (On the shipped directory no two entries of one
area share a rating, so the claimed farther-first order is never
observable on real data; the sort key itself is closer-first.) -/
theorem ranking_desc_rating_then_closer (zipcode : String) (radius : ℚ)
    (specialty : String) :
    ((find_nearby_lawyers zipcode radius specialty).lawyers).Pairwise
      (fun a b => b.rating < a.rating
        ∨ (a.rating = b.rating ∧ a.distance_miles ≤ b.distance_miles)) := by
  have hsorted : (sortLawyers ((candidateArea zipcode).filter
      (fun l => decide (l.distance_miles ≤ radius)))).Pairwise lawyerGe :=
    List.sorted_insertionSort lawyerGe _
  have h2 : (sortLawyers ((candidateArea zipcode).filter
      (fun l => decide (l.distance_miles ≤ radius)))).Pairwise
      (fun a b => b.rating < a.rating
        ∨ (a.rating = b.rating ∧ a.distance_miles ≤ b.distance_miles)) := by
    refine hsorted.imp ?_
    intro a b hab
    rcases hab with h | ⟨h, h'⟩
    · exact Or.inl h
    · exact Or.inr ⟨h.symm, by linarith⟩
  show ((((sortLawyers ((candidateArea zipcode).filter
      (fun l => decide (l.distance_miles ≤ radius))))).map annotate).take 5).Pairwise _
  apply List.Pairwise.sublist (List.take_sublist _ _)
  rw [List.pairwise_map]
  exact h2

/-- C7: for a zipcode whose 3-digit area key has no directory entry but has
an adjacency mapping, the candidate list is exactly the adjacent area with
every distance increased by the fixed penalty of 10 (before radius
filtering), and every entry the call returns lies within the requested
radius. -/
theorem adjacency_fallback_distance_penalty (zipcode : String) (radius : ℚ)
    (specialty alt : String)
    (hmiss : ((lawyer_database.lookup (zipArea zipcode)).getD []).isEmpty = true)
    (hadj : nearby_prefixes.lookup (zipArea zipcode) = some alt) :
    candidateArea zipcode
      = ((lawyer_database.lookup alt).getD []).map
          (fun lw => { lw with distance_miles := lw.distance_miles + 10 })
    ∧ ∀ lw ∈ (find_nearby_lawyers zipcode radius specialty).lawyers,
        lw.distance_miles ≤ radius := by
  constructor
  · unfold candidateArea
    simp only [hmiss, hadj, if_true]
  · exact find_lawyers_within_radius zipcode radius specialty

theorem adjacency_fallback_distance_penalty_witness :
    ((lawyer_database.lookup (zipArea ("02239"))).getD []).isEmpty = true
    ∧ nearby_prefixes.lookup (zipArea ("02239")) = some ("021")
    ∧ (candidateArea ("02239")
        = ((lawyer_database.lookup ("021")).getD []).map
            (fun lw => { lw with distance_miles := lw.distance_miles + 10 })
      ∧ ∀ lw ∈ (find_nearby_lawyers ("02239") 25 ("probate")).lawyers,
          lw.distance_miles ≤ 25) :=
  ⟨rfl, rfl,
   adjacency_fallback_distance_penalty ("02239") 25 ("probate") ("021") rfl rfl⟩

/-- One entry of the form-instruction table of
`get_platform_form_instructions` (agent.py lines 220-345).  The multi-page
`instructions` display text is omitted: it is a string constant that the
function never branches on. -/
structure FormGuide where
  form_url : String
  form_name : String
  estimated_time : String
  processing_time : String
  success_rate : String
  required_documents : List String
deriving DecidableEq

def platform_guides : List (String × FormGuide) :=
  [(("Google"),
    { form_url := "https://support.google.com/accounts/contact/deceased"
      form_name := "Google Deceased User Notification"
      estimated_time := "10-15 minutes to complete"
      processing_time := "30-90 days"
      success_rate := "85%"
      required_documents :=
        ["Death certificate (certified copy)",
         "Government-issued photo ID",
         "Proof of relationship to deceased"] }),
   (("Facebook"),
    { form_url := "https://www.facebook.com/help/contact/234739086860192"
      form_name := "Facebook Memorialization Request"
      estimated_time := "5-10 minutes to complete"
      processing_time := "14-30 days"
      success_rate := "80%"
      required_documents :=
        ["Death certificate or obituary",
         "Government-issued photo ID",
         "Proof of relationship (for data requests)"] })]

/-- The result dictionary of `get_platform_form_instructions`. -/
structure FormResult where
  status : String
  message : String := ""
  available_platforms : List String := []
  platform : String := ""
  form_url : String := ""
  form_name : String := ""
  estimated_completion_time : String := ""
  processing_time : String := ""
  success_rate : String := ""
  required_documents : List String := []
  summary : String := ""
deriving DecidableEq

/-- `get_platform_form_instructions` (agent.py lines 210-367). -/
def get_platform_form_instructions (platform : String) : FormResult :=
  match platform_guides.lookup platform with
  | none =>
      { status := "error"
        message := "Form instructions not available for " ++ platform
        available_platforms := ["Google", "Facebook", "Apple", "Microsoft"] }
  | some g =>
      { status := "success"
        platform := platform
        form_url := g.form_url
        form_name := g.form_name
        estimated_completion_time := g.estimated_time
        processing_time := g.processing_time
        success_rate := g.success_rate
        required_documents := g.required_documents
        summary := "Complete the " ++ g.form_name ++ " at " ++ g.form_url
          ++ ". Expected processing time: " ++ g.processing_time ++ "." }

/-- One row of `get_all_platform_options` (agent.py lines 482-511). -/
structure PlatformOption where
  services : List String
  difficulty : String
  timeline : String
  success_rate : String
  primary_method : String
deriving DecidableEq

/-- The result of `get_all_platform_options` (agent.py lines 474-530): note
that this result dictionary carries NO `status` discriminator at all. -/
structure PlatformOptionsResult where
  supported_platforms : List (String × PlatformOption)
  general_requirements : List String
  recommended_order : List String
  tips : List String
deriving DecidableEq

def get_all_platform_options : PlatformOptionsResult :=
  { supported_platforms :=
      [(("Google"),
        { services := ["Gmail", "Google Drive", "Google Photos", "YouTube"]
          difficulty := "Medium"
          timeline := "30-90 days"
          success_rate := "85%"
          primary_method := "Online form + email" }),
       (("Facebook"),
        { services := ["Facebook", "Instagram", "WhatsApp", "Threads"]
          difficulty := "Easy"
          timeline := "14-30 days"
          success_rate := "80%"
          primary_method := "Memorialization form + email" }),
       (("Apple"),
        { services := ["iCloud", "iTunes", "App Store", "Apple Pay"]
          difficulty := "Hard"
          timeline := "60-180 days"
          success_rate := "60%"
          primary_method := "Court order usually required" }),
       (("Microsoft"),
        { services := ["Outlook", "OneDrive", "Xbox", "Office 365"]
          difficulty := "Medium"
          timeline := "30-60 days"
          success_rate := "75%"
          primary_method := "Support contact + email" })]
    general_requirements :=
      ["Death certificate (certified copy)",
       "Government-issued photo ID",
       "Proof of relationship to deceased",
       "Legal executor documentation (when applicable)"]
    recommended_order :=
      ["1. Start with Facebook (easiest, fastest)",
       "2. Then Google (good success rate)",
       "3. Then Microsoft (moderate difficulty)",
       "4. Save Apple for last (most difficult)"]
    tips :=
      ["Gather all documents before starting any process",
       "Keep detailed records of all communications",
       "Be patient - most processes take 30+ days",
       "Start with easier platforms to build experience"] }

/-- Python `str.title()`: the first letter of every alphabetic run is
uppercased, the rest lowered (used by the notification-letter fallback). -/
def titleChars : Bool → List Char → List Char
  | _, [] => []
  | prev, c :: t =>
    (if c.isAlpha then (if prev then c.toLower else c.toUpper) else c)
      :: titleChars c.isAlpha t

def strTitle (s : String) : String := String.mk (titleChars false s.data)

/-- One entry of the letter-address table of
`generate_death_notification_letter` (agent.py lines 796-815). -/
structure LetterInfo where
  address : String
  subject : String
  special_instructions : String
  form_url : String
deriving DecidableEq

def platform_specific_info : List (String × LetterInfo) :=
  [(("google.com"),
    { address := "Google LLC\nInactive Account Manager\n1600 Amphitheatre Parkway\nMountain View, CA 94043"
      subject := "Request for Access to Deceased User Account"
      special_instructions := "Submit through Google\x27s official deceased user form online"
      form_url := "https://support.google.com/accounts/contact/deceased" }),
   (("facebook.com"),
    { address := "Meta Platforms, Inc.\nDeceased User Requests\n1 Meta Way\nMenlo Park, CA 94025"
      subject := "Deceased User Account - Request for Access"
      special_instructions := "Use Facebook\x27s memorialization request form"
      form_url := "https://www.facebook.com/help/contact/228813257197480" }),
   (("apple.com"),
    { address := "Apple Inc.\nPrivacy Team\nOne Apple Park Way\nCupertino, CA 95014"
      subject := "Digital Legacy Contact Request"
      special_instructions := "Court order typically required for Apple ID access"
      form_url := "Contact Apple Support directly" })]

/-- The fallback entry for a platform outside the table
(agent.py lines 817-822). -/
def letterInfoFor (platform : String) : LetterInfo :=
  (platform_specific_info.lookup platform).getD
    { address := strTitle platform ++ " Support Team"
      subject := "Deceased User Account Access Request"
      special_instructions := "Contact customer support for specific procedures"
      form_url := "Check platform\x27s help documentation" }

/-- The result dictionary of `generate_death_notification_letter`; the
bracket-placeholder letter body is omitted: it is template text the
function never branches on, assembled from `letterInfoFor` and the four
arguments. -/
structure LetterResult where
  status : String
  platform : String
  required_documents : List String
  submission_url : String
  estimated_processing_time : String
deriving DecidableEq

/-- `generate_death_notification_letter` (agent.py lines 783-883). -/
def generate_death_notification_letter (platform deceased_name executor_name
    relationship : String) : LetterResult :=
  let info := letterInfoFor platform
  { status := "success"
    platform := platform
    required_documents :=
      ["Certified Death Certificate",
       "Government-issued ID of executor",
       "Proof of relationship to deceased",
       "Legal documentation of executor authority"]
    submission_url := info.form_url
    estimated_processing_time := "30-90 days depending on platform" }

/-- The result dictionary of `generate_probate_petition_outline`; the
bracket-placeholder outline body is omitted (template text, never
branched on). -/
structure PetitionResult where
  status : String
  state : String
  filing_requirements : List String
  estimated_timeline : String
  recommendation : String
deriving DecidableEq

/-- `generate_probate_petition_outline` (agent.py lines 885-975). -/
def generate_probate_petition_outline (state deceased_name executor_name
    assets_summary : String) : PetitionResult :=
  { status := "success"
    state := state
    filing_requirements :=
      ["File with " ++ state ++ " Probate Court",
       "Pay required filing fees",
       "Serve notice to heirs and beneficiaries",
       "Attend court hearing if required"]
    estimated_timeline := "4-8 weeks for court approval"
    recommendation := "Consult with a local probate attorney for state-specific requirements" }

/-- One row of the state-law table of `check_state_digital_asset_laws`
(agent.py lines 988-1022).  `court_order_required` is heterogeneous in the
source (`False` or a string), modelled as a sum. -/
structure StateLaw where
  law_name : String
  code_section : String
  key_provisions : List String
  executor_powers : String
  court_order_required : Sum Bool String
deriving DecidableEq

def state_laws : List (String × StateLaw) :=
  [(("california"),
    { law_name := "California Revised Uniform Fiduciary Access to Digital Assets Act"
      code_section := "Probate Code Section 850-859"
      key_provisions :=
        ["Fiduciaries can access digital assets unless prohibited by will",
         "Service providers must comply with lawful requests",
         "Privacy protections for electronic communications"]
      executor_powers := "Broad authority to manage digital assets"
      court_order_required := .inl false }),
   (("new_york"),
    { law_name := "New York RUFADAA"
      code_section := "EPTL Section 13-A"
      key_provisions :=
        ["Executor has authority over digital assets",
         "Terms of service cannot override state law",
         "Separate procedures for electronic communications"]
      executor_powers := "Full authority with proper documentation"
      court_order_required := .inl false }),
   (("texas"),
    { law_name := "Texas Estates Code Chapter 2001"
      code_section := "Texas Estates Code Sec. 2001.001-2001.004"
      key_provisions :=
        ["Independent administration preferred",
         "Digital assets treated as personal property",
         "Court supervision may be required for some assets"]
      executor_powers := "Authority depends on will provisions"
      court_order_required := .inr ("Sometimes") })]

/-- The result dictionary of `check_state_digital_asset_laws`. -/
structure LawResult where
  status : String
  state : String
  digital_asset_law : StateLaw
  recommendation : String
  compliance_checklist : List String
deriving DecidableEq

/-- `check_state_digital_asset_laws` (agent.py lines 977-1043). -/
def check_state_digital_asset_laws (state : String) : LawResult :=
  let info := (state_laws.lookup (strLower state)).getD
    { law_name := state ++ " Digital Asset Laws"
      code_section := "Consult state statutes"
      key_provisions := ["Check state-specific RUFADAA adoption"]
      executor_powers := "Varies by state"
      court_order_required := .inr ("Possibly") }
  { status := "success"
    state := state
    digital_asset_law := info
    recommendation := "Consult with local estate attorney for current law interpretation"
    compliance_checklist :=
      ["Verify current state law status",
       "Review will for digital asset provisions",
       "Prepare proper executor documentation",
       "Follow state-specific procedures"] }

/-- The result dictionary of `analyze_email_content`
(discovery_tools.py lines 195-253); the regular-expression findings block
is omitted (the `re` module is outside the embedding), which is sound for
the status discriminator: the function returns `success` unconditionally. -/
structure AnalyzeResult where
  status : String
  recommendations : List String
deriving DecidableEq

/-- `analyze_email_content` (discovery_tools.py lines 195-253). -/
def analyze_email_content (email_content : String) : AnalyzeResult :=
  { status := "success"
    recommendations :=
      ["Use account confirmations to verify platform presence",
       "Follow up on financial indicators for asset recovery",
       "Cancel subscription services to prevent ongoing charges"] }

/-- The status vocabulary named by the spec. -/
def claimedStatuses : List String :=
  ["success", "error", "not_found", "sent", "demo"]

/-- The status vocabulary the code actually uses: the five of the spec plus
`found`, the success status of `track_case_status`. -/
def allowedStatuses : List String :=
  ["success", "error", "not_found", "sent", "demo", "found"]

/-- A concrete stored case used by the status counterexample. -/
def sampleCase : CaseRecord :=
  { case_id := "GOOGLE_20240101_120000"
    platform := "Google"
    deceased_name := "John Doe"
    executor_name := "Jane Doe"
    action_type := "email"
    created_date := 0
    status := "submitted"
    last_updated := 0 }

/-- C8 counterexample: a successful `track_case_status` lookup returns the
discriminator `found`, which is outside the enumeration
`success | error | not_found | sent | demo` the claim asserts. -/
theorem track_found_status_outside_enumeration :
    (track_case_status (.ok [(("GOOGLE_20240101_120000"), sampleCase)])
        ("GOOGLE_20240101_120000") 10).status = "found"
    ∧ ("found" : String) ∉ claimedStatuses :=
  ⟨rfl, by decide⟩

/-- C8 amended: every embedded operation that carries a status
discriminator draws it from
`success | error | not_found | sent | demo | found`, where `found` is the
success status of `track_case_status`; `get_all_platform_options` is the
one operation whose result carries no discriminator at all (its result
type has no status field). -/
theorem status_discriminators_enumerated :
    (∀ (st : StoreState) (cid : String) (now : Int),
      (track_case_status st cid now).status ∈ allowedStatuses)
    ∧ (∀ (i : SendInputs) (env : SendEnv),
      (send_recovery_email i env).1.status ∈ allowedStatuses)
    ∧ (∀ p : String, (get_platform_form_instructions p).status ∈ allowedStatuses)
    ∧ (∀ (z : String) (r : ℚ) (s : String),
      (find_nearby_lawyers z r s).status ∈ allowedStatuses)
    ∧ (∀ (n : String) (es : List String) (info : String),
      (discover_digital_assets n es info).status ∈ allowedStatuses)
    ∧ (∀ p dn en rel : String,
      (generate_death_notification_letter p dn en rel).status ∈ allowedStatuses)
    ∧ (∀ s dn en asum : String,
      (generate_probate_petition_outline s dn en asum).status ∈ allowedStatuses)
    ∧ (∀ s : String, (check_state_digital_asset_laws s).status ∈ allowedStatuses)
    ∧ (∀ c : String, (analyze_email_content c).status ∈ allowedStatuses) := by
  refine ⟨?_, ?_, ?_, ?_, ?_, ?_, ?_, ?_, ?_⟩
  · intro st cid now
    cases st with
    | missing => simp [track_case_status, allowedStatuses]
    | corrupt => simp [track_case_status, allowedStatuses]
    | ok data =>
      cases h : dictGet data cid <;> simp [track_case_status, h, allowedStatuses]
  · intro i env
    unfold send_recovery_email
    dsimp only
    split
    · split <;> simp [allowedStatuses]
    · simp [allowedStatuses]
  · intro p
    unfold get_platform_form_instructions
    split <;> simp [allowedStatuses]
  · intro z r s
    simp [find_nearby_lawyers, allowedStatuses]
  · intro n es info
    simp [discover_digital_assets, allowedStatuses]
  · intro p dn en rel
    simp [generate_death_notification_letter, allowedStatuses]
  · intro s dn en asum
    simp [generate_probate_petition_outline, allowedStatuses]
  · intro s
    simp [check_state_digital_asset_laws, allowedStatuses]
  · intro c
    simp [analyze_email_content, allowedStatuses]
